import Mathlib

/-!
# Packet_Blocker: a shallow embedding of the eBPF port filters

Three programs are embedded, each from its C source:

* `drop_tcp_port`   (`ebpf-tcp-dropper/bpf/drop_tcp.bpf.c`), the XDP hook;
* `block_egress` / `block_ingress`
  (`ebpf-tcp-dropper-application/src/ebpf_dropper.c`), the cgroup_skb hooks;
* `connect4_filter` / `connect6_filter`
  (`ebpf-tcp-dropper-application/simple-port-filter.c`), the connect hooks.

A packet buffer is a list of bytes; `data` is offset 0 and `data_end` is the
length of the list.  Direct packet loads of the XDP program go through
`load_u8`, which records the offset it touches and yields no value when the
offset lies outside the buffer, so that every run carries the list of offsets
it loaded and a fault is visible as a missing value.  The host is
little-endian (the byte swap written out in `simple-port-filter.c` assumes it).
-/

namespace PacketBlocker

/-! ## Machine types -/

abbrev U8 := Fin 256
abbrev U16 := Fin 65536
abbrev U32 := Fin 4294967296

/-! ## Constants of the kernel headers -/

/-- Value `XDP_DROP` of `enum xdp_action` in `linux/bpf.h`. -/
def XDP_DROP : Nat := 1
/-- Value `XDP_PASS` of `enum xdp_action` in `linux/bpf.h`. -/
def XDP_PASS : Nat := 2
/-- Constant `ETH_P_IP` of `linux/if_ether.h`. -/
def ETH_P_IP : Nat := 0x0800
/-- Constant `IPPROTO_TCP` of `linux/in.h`. -/
def IPPROTO_TCP : Nat := 6
/-- Size of `struct ethhdr`: two 6-byte addresses and `h_proto` at offset 12. -/
def sizeof_ethhdr : Nat := 14
/-- Size of `struct iphdr`: version/ihl at offset 0, `protocol` at offset 9. -/
def sizeof_iphdr : Nat := 20
/-- Size of `struct tcphdr`: `source` at offset 0, `dest` at offset 2. -/
def sizeof_tcphdr : Nat := 20

/-- Byte swap of a 16-bit value. -/
def bswap16 (x : Nat) : Nat := ((x % 256) * 256 + (x / 256) % 256) % 65536
/-- Helper `bpf_htons` on a little-endian host. -/
def bpf_htons (x : Nat) : Nat := bswap16 x
/-- Helper `bpf_ntohs` on a little-endian host. -/
def bpf_ntohs (x : Nat) : Nat := bswap16 x

/-! ## Runs with a load trace -/

/-- A run over a packet buffer: the offsets loaded, in program order, and the
value produced, absent when a load fell outside the buffer. -/
structure Exec (α : Type) where
  reads : List Nat
  val : Option α
deriving DecidableEq

/-- A run that loads nothing. -/
def Exec.ret {α : Type} (a : α) : Exec α := ⟨[], some a⟩

/-- Sequencing: the second part runs only when the first produced a value. -/
def Exec.bind {α β : Type} (m : Exec α) (f : α → Exec β) : Exec β :=
  match m.val with
  | none => ⟨m.reads, none⟩
  | some a => ⟨m.reads ++ (f a).reads, (f a).val⟩

/-- One-byte load at `off`. -/
def load_u8 (pkt : List U8) (off : Nat) : Exec Nat :=
  ⟨[off], (pkt.get? off).map Fin.val⟩

/-- Two-byte load at `off`, little-endian host. -/
def load_u16 (pkt : List U8) (off : Nat) : Exec Nat :=
  (load_u8 pkt off).bind fun lo =>
  (load_u8 pkt (off + 1)).bind fun hi =>
  Exec.ret (lo + 256 * hi)

/-- A returned value together with the source line of its `return`. -/
structure Ret where
  value : Nat
  line : Nat
deriving DecidableEq

/-! ## `drop_tcp.bpf.c` -/

/-- XDP program `drop_tcp_port`.  `frame` is the memory between `ctx->data` and
`ctx->data_end`; `port_to_block` is the result of looking up key 0 in the map
of that name (`none` for a null pointer). -/
def drop_tcp_port (frame : List U8) (port_to_block : Option U16) : Exec Ret :=
  let data_end := frame.length
  let eth := 0
  if eth + sizeof_ethhdr > data_end then Exec.ret ⟨XDP_PASS, 25⟩ else
  (load_u16 frame (eth + 12)).bind fun h_proto =>
  if h_proto ≠ bpf_htons ETH_P_IP then Exec.ret ⟨XDP_PASS, 30⟩ else
  let ip := eth + sizeof_ethhdr
  if ip + sizeof_iphdr > data_end then Exec.ret ⟨XDP_PASS, 36⟩ else
  (load_u8 frame ip).bind fun vhl =>
  if vhl % 16 < 5 then Exec.ret ⟨XDP_PASS, 41⟩ else
  (load_u8 frame ip).bind fun vhl2 =>
  let ip_hdr_len := (vhl2 % 16) * 4
  if ip + ip_hdr_len > data_end then Exec.ret ⟨XDP_PASS, 47⟩ else
  (load_u8 frame (ip + 9)).bind fun protocol =>
  if protocol ≠ 6 then Exec.ret ⟨XDP_PASS, 52⟩ else
  let tcp := ip + ip_hdr_len
  if tcp + sizeof_tcphdr > data_end then Exec.ret ⟨XDP_PASS, 58⟩ else
  match port_to_block with
  | none => Exec.ret ⟨XDP_PASS, 65⟩
  | some block_port =>
    (load_u16 frame (tcp + 2)).bind fun dest =>
    if bpf_ntohs dest = block_port.val then Exec.ret ⟨XDP_DROP, 70⟩
    else Exec.ret ⟨XDP_PASS, 73⟩

/-! ## `ebpf_dropper.c` -/

/-- The part of `struct __sk_buff` the programs use: `ifindex` and the packet
bytes, which for a cgroup_skb program start at the IP header. -/
structure sk_buff where
  ifindex : U32
  data : List U8

/-- The two configuration maps, each as the result of looking up key 0. -/
structure Maps where
  cfg_ifindex : Option U32
  cfg_port : Option U16

/-- Kernel helper `bpf_skb_load_bytes`: copies `len` bytes at `offset`, and
fails (negative return, here `none`) when they are not all inside the packet. -/
def bpf_skb_load_bytes (skb : sk_buff) (offset len : Nat) : Option (List U8) :=
  if offset + len ≤ skb.data.length then some ((skb.data.drop offset).take len)
  else none

/-- Byte `i` of a byte sequence, as a number; 0 when there is no such byte.  The
programs apply it to copied headers only, inside their length. -/
def fieldU8 (hdr : List U8) (i : Nat) : Nat := ((hdr.get? i).map Fin.val).getD 0

/-- 16-bit field at `i` of a byte sequence, as loaded by a little-endian host. -/
def fieldU16 (hdr : List U8) (i : Nat) : Nat := fieldU8 hdr i + 256 * fieldU8 hdr (i + 1)

/-- Function `should_filter`. -/
def should_filter (m : Maps) (ifindex : U32) : Nat :=
  match m.cfg_ifindex with
  | none => 1
  | some cfg =>
    if cfg.val = 0 then 1
    else if ifindex = cfg then 1 else 0

/-- Function `is_blocked_port`. -/
def is_blocked_port (m : Maps) (skb : sk_buff) : Nat :=
  match m.cfg_port with
  | none => 0
  | some p_port =>
    let blocked_port := p_port.val
    if blocked_port = 0 then 0 else
    match bpf_skb_load_bytes skb 0 sizeof_iphdr with
    | none => 0
    | some iph =>
      if fieldU8 iph 0 / 16 ≠ 4 then 0 else
      if fieldU8 iph 9 ≠ IPPROTO_TCP then 0 else
      let ihl := (fieldU8 iph 0 % 16) * 4
      match bpf_skb_load_bytes skb ihl sizeof_tcphdr with
      | none => 0
      | some tcph =>
        let sport := bpf_ntohs (fieldU16 tcph 0)
        let dport := bpf_ntohs (fieldU16 tcph 2)
        if sport = blocked_port ∨ dport = blocked_port then 1 else 0

/-- Program `block_egress`: 0 is SK_DROP, 1 is SK_PASS. -/
def block_egress (m : Maps) (skb : sk_buff) : Nat :=
  if should_filter m skb.ifindex = 0 then 1
  else if is_blocked_port m skb ≠ 0 then 0
  else 1

/-- Program `block_ingress`: 0 is SK_DROP, 1 is SK_PASS. -/
def block_ingress (m : Maps) (skb : sk_buff) : Nat :=
  if should_filter m skb.ifindex = 0 then 1
  else if is_blocked_port m skb ≠ 0 then 0
  else 1

/-! ## `simple-port-filter.c` -/

/-- Compile-time constant `BLOCKED_PORT` of `simple-port-filter.c`. -/
def BLOCKED_PORT : Nat := 8080

/-- Program `connect4_filter`, given `ctx->user_port`: 0 blocks, 1 allows. -/
def connect4_filter (user_port : U32) : Nat :=
  let port := user_port.val % 65536
  let port := ((port >>> 8) ||| ((port &&& 0xFF) <<< 8)) % 65536
  if port = BLOCKED_PORT then 0 else 1

/-- Program `connect6_filter`. -/
def connect6_filter (user_port : U32) : Nat := connect4_filter user_port

/-! ## Header fields, as the protocols lay them out -/

/-- The header-length nibble of the IPv4 header of an Ethernet frame. -/
def frame_ihl (frame : List U8) : Nat := fieldU8 frame 14 % 16

/-- The TCP source port of a frame, read big-endian after the IPv4 header. -/
def frame_sport (frame : List U8) : Nat :=
  fieldU8 frame (14 + frame_ihl frame * 4) * 256
    + fieldU8 frame (14 + frame_ihl frame * 4 + 1)

/-- The TCP destination port of a frame, read big-endian after the IPv4 header. -/
def frame_dport (frame : List U8) : Nat :=
  fieldU8 frame (14 + frame_ihl frame * 4 + 2) * 256
    + fieldU8 frame (14 + frame_ihl frame * 4 + 3)

/-- The version nibble of an IP packet. -/
def pkt_version (pkt : List U8) : Nat := fieldU8 pkt 0 / 16

/-- The header-length nibble of an IP packet. -/
def pkt_ihl (pkt : List U8) : Nat := fieldU8 pkt 0 % 16

/-- The protocol byte of an IPv4 packet. -/
def pkt_protocol (pkt : List U8) : Nat := fieldU8 pkt 9

/-- The TCP source port of an IP packet, read big-endian after the IP header. -/
def pkt_sport (pkt : List U8) : Nat :=
  fieldU8 pkt (pkt_ihl pkt * 4) * 256 + fieldU8 pkt (pkt_ihl pkt * 4 + 1)

/-- The TCP destination port of an IP packet, read big-endian after the IP header. -/
def pkt_dport (pkt : List U8) : Nat :=
  fieldU8 pkt (pkt_ihl pkt * 4 + 2) * 256 + fieldU8 pkt (pkt_ihl pkt * 4 + 3)

/-- An Ethernet header announcing IPv4: 14 bytes, the last two 0x08 0x00. -/
def isEthIPv4 (eth : List U8) : Prop :=
  eth.length = 14 ∧ fieldU8 eth 12 = 8 ∧ fieldU8 eth 13 = 0

instance (eth : List U8) : Decidable (isEthIPv4 eth) := by
  unfold isEthIPv4; infer_instance

/-- An Ethernet frame that `drop_tcp_port` parses through TCP: ethertype IPv4,
header length of at least five words, protocol TCP, and room for the IP header
and a 20-byte TCP header. -/
def isTcpFrame (frame : List U8) : Prop :=
  fieldU8 frame 12 = 8 ∧ fieldU8 frame 13 = 0 ∧ 5 ≤ frame_ihl frame ∧
    fieldU8 frame 23 = 6 ∧ 14 + frame_ihl frame * 4 + 20 ≤ frame.length

instance (frame : List U8) : Decidable (isTcpFrame frame) := by
  unfold isTcpFrame; infer_instance

/-- The value a run returns, when it returns. -/
def Exec.action (r : Exec Ret) : Option Nat := r.val.map Ret.value

/-- A packet that parses through TCP: version 4, header length of at least five
words, protocol TCP, and room for the IP header and a 20-byte TCP header. -/
def isIPv4Tcp (pkt : List U8) : Prop :=
  pkt_version pkt = 4 ∧ 5 ≤ pkt_ihl pkt ∧ pkt_protocol pkt = 6 ∧
    pkt_ihl pkt * 4 + 20 ≤ pkt.length

instance (pkt : List U8) : Decidable (isIPv4Tcp pkt) := by
  unfold isIPv4Tcp; infer_instance

/-! ## Test packets -/

/-- A 20-byte frame: an IPv4 Ethernet header and the first six bytes of an
IPv4 header declaring ihl = 5. -/
def truncatedFrame : List U8 := [0, 0, 0, 0, 0, 1, 0, 0, 0, 0, 0, 2, 0x08, 0x00, 0x45, 0, 0, 40, 0, 0]

/-- A 54-byte frame whose IPv4 header declares ihl = 4, with the bytes 0x1f 0x90
(8080) where a 16-byte IP header would place the TCP destination port. -/
def ihl4Frame : List U8 :=
  [0, 0, 0, 0, 0, 1, 0, 0, 0, 0, 0, 2, 0x08, 0x00,
   0x44, 0, 0, 40, 0, 0, 0, 0, 64, 6, 0, 0, 127, 0, 0, 1,
   0xc3, 0x50, 0x1f, 0x90, 0, 0, 0, 0, 0, 0, 0, 0, 0x50, 0x02, 0xff, 0xff, 0, 0, 0, 0,
   0, 0, 0, 0]

/-- A 40-byte frame whose IPv4 header declares ihl = 15, a 60-byte header. -/
def ihl15Frame : List U8 :=
  [0, 0, 0, 0, 0, 1, 0, 0, 0, 0, 0, 2, 0x08, 0x00,
   0x4f, 0, 0, 26, 0, 0, 0, 0, 64, 6, 0, 0, 127, 0, 0, 1, 127, 0, 0, 1,
   0, 0, 0, 0, 0, 0]

/-- An Ethernet header with ethertype 0x0800. -/
def ethIPv4 : List U8 := [0, 0, 0, 0, 0, 1, 0, 0, 0, 0, 0, 2, 0x08, 0x00]

/-- A 20-byte IPv4 header (version 4, ihl 5) carrying TCP. -/
def ipv4Tcp : List U8 :=
  [0x45, 0, 0, 40, 0, 0, 0, 0, 64, 6, 0, 0, 127, 0, 0, 1, 127, 0, 0, 1]

/-- A 20-byte TCP header with the given ports. -/
def tcpHdr (sport dport : Nat) : List U8 :=
  [Fin.ofNat (sport / 256), Fin.ofNat sport, Fin.ofNat (dport / 256), Fin.ofNat dport,
   0, 0, 0, 0, 0, 0, 0, 0, 0x50, 0x02, 0xff, 0xff, 0, 0, 0, 0]

/-- An IPv4/TCP packet as the cgroup_skb hooks see it. -/
def tcpPacket (sport dport : Nat) : List U8 := ipv4Tcp ++ tcpHdr sport dport

/-- The same packet behind an Ethernet header, as the XDP hook sees it. -/
def tcpFrame (sport dport : Nat) : List U8 := ethIPv4 ++ tcpPacket sport dport

/-- A 40-byte packet for the cgroup_skb hooks: version 4, ihl = 4, protocol
TCP, with the bytes 0xc3 0x50 (50000) and 0x1f 0x90 (8080) at offsets 16..19,
where a 16-byte IP header ends. -/
def ihl4Packet : List U8 :=
  [0x44, 0, 0, 40, 0, 0, 0, 0, 64, 6, 0, 0, 127, 0, 0, 1,
   0xc3, 0x50, 0x1f, 0x90, 0, 0, 0, 0, 0, 0, 0, 0, 0x50, 0x02, 0xff, 0xff, 0, 0, 0, 0,
   0, 0, 0, 0]

/-- A 54-byte frame with ethertype 0x0800 whose first IP-header byte is 0x65
(version nibble 6, ihl = 5), protocol TCP, TCP ports 50000 and 8080. -/
def version6Frame : List U8 :=
  [0, 0, 0, 0, 0, 1, 0, 0, 0, 0, 0, 2, 0x08, 0x00,
   0x65, 0, 0, 40, 0, 0, 0, 0, 64, 6, 0, 0, 127, 0, 0, 1, 127, 0, 0, 1,
   0xc3, 0x50, 0x1f, 0x90, 0, 0, 0, 0, 0, 0, 0, 0, 0x50, 0x02, 0xff, 0xff, 0, 0, 0, 0]

/-- A 54-byte TCP frame to port 8080 that differs from `tcpFrame 50000 8080` in
its MAC addresses, IP addresses, TTL, source port, sequence number, TCP flags
and checksum. -/
def otherTcpFrame : List U8 :=
  [0xaa, 0xbb, 0xcc, 0xdd, 0xee, 0xff, 0x02, 0x42, 0xac, 0x11, 0x00, 0x02, 0x08, 0x00,
   0x45, 0x10, 0, 40, 0x12, 0x34, 0x40, 0, 17, 6, 0xab, 0xcd, 10, 1, 2, 3, 192, 168, 0, 7,
   0x04, 0xd2, 0x1f, 0x90, 1, 2, 3, 4, 5, 6, 7, 8, 0x50, 0x18, 0x20, 0x00, 0x9a, 0xbc, 0, 0]

/-- The conversion `(port >> 8) | ((port & 0xFF) << 8)` of `connect4_filter`,
stored back into its `__u16` variable. -/
def port_conversion (port : Nat) : Nat :=
  ((port >>> 8) ||| ((port &&& 0xFF) <<< 8)) % 65536

/-! ## Loads inside the buffer -/

theorem fieldU8_lt (pkt : List U8) (i : Nat) : fieldU8 pkt i < 256 := by
  unfold fieldU8
  cases h : pkt.get? i with
  | none => simp
  | some b => simp

theorem load_u8_in {pkt : List U8} {off : Nat} (h : off < pkt.length) :
    load_u8 pkt off = ⟨[off], some (fieldU8 pkt off)⟩ := by
  unfold load_u8 fieldU8
  rw [List.get?_eq_get h]
  simp

theorem load_u16_in {pkt : List U8} {off : Nat} (h : off + 1 < pkt.length) :
    load_u16 pkt off = ⟨[off, off + 1], some (fieldU16 pkt off)⟩ := by
  have h0 : off < pkt.length := by omega
  unfold load_u16
  rw [load_u8_in h0, load_u8_in h]
  simp [Exec.bind, Exec.ret, fieldU16]

theorem ntohs_fieldU16 (pkt : List U8) (off : Nat) :
    bpf_ntohs (fieldU16 pkt off) = fieldU8 pkt off * 256 + fieldU8 pkt (off + 1) := by
  have h0 := fieldU8_lt pkt off
  have h1 := fieldU8_lt pkt (off + 1)
  unfold bpf_ntohs bswap16 fieldU16
  generalize fieldU8 pkt off = a at h0 ⊢
  generalize fieldU8 pkt (off + 1) = b at h1 ⊢
  have e1 : (a + 256 * b) % 256 = a := by omega
  have e2 : (a + 256 * b) / 256 = b := by omega
  rw [e1, e2]
  omega

theorem ethertype_ne_iff (pkt : List U8) (off : Nat) :
    fieldU16 pkt off ≠ bpf_htons ETH_P_IP ↔
      ¬ (fieldU8 pkt off = 8 ∧ fieldU8 pkt (off + 1) = 0) := by
  have h0 := fieldU8_lt pkt off
  have h1 := fieldU8_lt pkt (off + 1)
  have hc : bpf_htons ETH_P_IP = 8 := by decide
  rw [hc]
  unfold fieldU16
  omega

/-- The run of `drop_tcp_port`, path by path. -/
theorem drop_tcp_port_eq (frame : List U8) (m : Option U16) :
    drop_tcp_port frame m =
      if frame.length < 14 then ⟨[], some ⟨XDP_PASS, 25⟩⟩
      else if ¬ (fieldU8 frame 12 = 8 ∧ fieldU8 frame 13 = 0) then
        ⟨[12, 13], some ⟨XDP_PASS, 30⟩⟩
      else if frame.length < 34 then ⟨[12, 13], some ⟨XDP_PASS, 36⟩⟩
      else if frame_ihl frame < 5 then ⟨[12, 13, 14], some ⟨XDP_PASS, 41⟩⟩
      else if frame.length < 14 + frame_ihl frame * 4 then
        ⟨[12, 13, 14, 14], some ⟨XDP_PASS, 47⟩⟩
      else if fieldU8 frame 23 ≠ 6 then ⟨[12, 13, 14, 14, 23], some ⟨XDP_PASS, 52⟩⟩
      else if frame.length < 14 + frame_ihl frame * 4 + 20 then
        ⟨[12, 13, 14, 14, 23], some ⟨XDP_PASS, 58⟩⟩
      else match m with
        | none => ⟨[12, 13, 14, 14, 23], some ⟨XDP_PASS, 65⟩⟩
        | some b =>
          if frame_dport frame = b.val then
            ⟨[12, 13, 14, 14, 23, 14 + frame_ihl frame * 4 + 2,
                14 + frame_ihl frame * 4 + 3], some ⟨XDP_DROP, 70⟩⟩
          else
            ⟨[12, 13, 14, 14, 23, 14 + frame_ihl frame * 4 + 2,
                14 + frame_ihl frame * 4 + 3], some ⟨XDP_PASS, 73⟩⟩ := by
  unfold drop_tcp_port frame_dport frame_ihl
  simp only [sizeof_ethhdr, sizeof_iphdr, sizeof_tcphdr, Nat.zero_add]
  by_cases h1 : frame.length < 14
  · simp [h1, Exec.ret]
  have h1' : ¬ (14 > frame.length) := by omega
  rw [if_neg h1', if_neg h1, load_u16_in (by omega)]
  simp only [Exec.bind, ethertype_ne_iff]
  by_cases h2 : fieldU8 frame 12 = 8 ∧ fieldU8 frame 13 = 0
  swap
  · simp [h2, Exec.ret]
  simp only [h2, and_self, not_true_eq_false, if_false]
  by_cases h3 : frame.length < 34
  · have h3' : 14 + 20 > frame.length := by omega
    simp [h3, h3', Exec.ret]
  have h3' : ¬ (14 + 20 > frame.length) := by omega
  rw [if_neg h3', if_neg h3, load_u8_in (by omega)]
  by_cases h4 : fieldU8 frame 14 % 16 < 5
  · simp [h4, Exec.ret]
  simp only [h4, if_false]
  by_cases h5 : frame.length < 14 + fieldU8 frame 14 % 16 * 4
  · have h5' : 14 + fieldU8 frame 14 % 16 * 4 > frame.length := by omega
    simp [h5, h5', Exec.ret]
  have h5' : ¬ (14 + fieldU8 frame 14 % 16 * 4 > frame.length) := by omega
  rw [if_neg h5', if_neg h5, load_u8_in (show 14 + 9 < frame.length by omega)]
  by_cases h6 : fieldU8 frame 23 = 6
  swap
  · simp [h6, Exec.ret]
  simp only [h6, ne_eq, not_true_eq_false, if_false]
  by_cases h7 : frame.length < 14 + fieldU8 frame 14 % 16 * 4 + 20
  · have h7' : 14 + fieldU8 frame 14 % 16 * 4 + 20 > frame.length := by omega
    simp [h7, h7', Exec.ret]
  have h7' : ¬ (14 + fieldU8 frame 14 % 16 * 4 + 20 > frame.length) := by omega
  rw [if_neg h7', if_neg h7]
  cases m with
  | none => simp [Exec.ret]
  | some b =>
    simp only
    rw [load_u16_in (by omega)]
    simp only [ntohs_fieldU16]
    by_cases h8 : fieldU8 frame (14 + fieldU8 frame 14 % 16 * 4 + 2) * 256
        + fieldU8 frame (14 + fieldU8 frame 14 % 16 * 4 + 3) = b.val
    · simp [h8, Exec.ret]
    · simp [h8, Exec.ret]

/-! ## The socket-buffer hooks, path by path -/

theorem fieldU8_load {skb : sk_buff} {off len : Nat} {hdr : List U8}
    (h : bpf_skb_load_bytes skb off len = some hdr) {i : Nat} (hi : i < len) :
    fieldU8 hdr i = fieldU8 skb.data (off + i) := by
  unfold bpf_skb_load_bytes at h
  split at h
  · simp only [Option.some.injEq] at h
    subst h
    unfold fieldU8
    simp [List.getElem?_take, hi, List.getElem?_drop]
  · simp at h

theorem load_bytes_isSome (skb : sk_buff) (off len : Nat) (h : off + len ≤ skb.data.length) :
    ∃ hdr, bpf_skb_load_bytes skb off len = some hdr := by
  unfold bpf_skb_load_bytes
  simp [h]

theorem load_bytes_none {skb : sk_buff} {off len : Nat} (h : skb.data.length < off + len) :
    bpf_skb_load_bytes skb off len = none := by
  unfold bpf_skb_load_bytes
  have : ¬ (off + len ≤ skb.data.length) := by omega
  simp [this]

/-- The value of `is_blocked_port`, path by path. -/
theorem is_blocked_port_eq (m : Maps) (skb : sk_buff) :
    is_blocked_port m skb =
      match m.cfg_port with
      | none => 0
      | some p =>
        if p.val = 0 then 0
        else if skb.data.length < 20 then 0
        else if pkt_version skb.data ≠ 4 then 0
        else if pkt_protocol skb.data ≠ 6 then 0
        else if skb.data.length < pkt_ihl skb.data * 4 + 20 then 0
        else if pkt_sport skb.data = p.val ∨ pkt_dport skb.data = p.val then 1
        else 0 := by
  unfold is_blocked_port
  cases hp : m.cfg_port with
  | none => rfl
  | some p =>
    simp only
    by_cases h0 : p.val = 0
    · simp [h0]
    simp only [h0, if_false, sizeof_iphdr, sizeof_tcphdr, IPPROTO_TCP]
    by_cases h1 : skb.data.length < 20
    · rw [load_bytes_none (by omega)]
      simp [h1]
    obtain ⟨iph, hiph⟩ := load_bytes_isSome skb 0 20 (by omega)
    rw [hiph]
    simp only [h1, if_false]
    have e0 : fieldU8 iph 0 = fieldU8 skb.data 0 := by
      simpa using fieldU8_load hiph (i := 0) (by omega)
    have e9 : fieldU8 iph 9 = fieldU8 skb.data 9 := by
      simpa using fieldU8_load hiph (i := 9) (by omega)
    rw [e0, e9]
    unfold pkt_version pkt_protocol pkt_sport pkt_dport pkt_ihl
    by_cases h2 : fieldU8 skb.data 0 / 16 = 4
    swap
    · simp [h2]
    by_cases h3 : fieldU8 skb.data 9 = 6
    swap
    · simp [h2, h3]
    simp only [h2, h3, ne_eq, not_true_eq_false, if_false]
    by_cases h4 : skb.data.length < fieldU8 skb.data 0 % 16 * 4 + 20
    · rw [load_bytes_none h4]
      simp [h4]
    obtain ⟨tcph, htcph⟩ := load_bytes_isSome skb (fieldU8 skb.data 0 % 16 * 4) 20 (by omega)
    rw [htcph]
    simp only [h4, if_false, ntohs_fieldU16]
    have t0 := fieldU8_load htcph (i := 0) (by omega)
    have t1 := fieldU8_load htcph (i := 1) (by omega)
    have t2 := fieldU8_load htcph (i := 2) (by omega)
    have t3 := fieldU8_load htcph (i := 3) (by omega)
    simp only [Nat.add_zero] at t0
    simp only [Nat.zero_add]
    rw [t0, t1, t2, t3]

/-- The two socket-buffer programs have the same body. -/
theorem block_ingress_eq_egress (m : Maps) (skb : sk_buff) :
    block_ingress m skb = block_egress m skb := rfl

/-! ## An IP packet behind its Ethernet header -/

theorem fieldU8_append_left (eth pkt : List U8) {i : Nat} (h : i < eth.length) :
    fieldU8 (eth ++ pkt) i = fieldU8 eth i := by
  unfold fieldU8
  simp [List.getElem?_append_left h]

theorem fieldU8_append_right (eth pkt : List U8) (h : eth.length = 14) (i : Nat) :
    fieldU8 (eth ++ pkt) (14 + i) = fieldU8 pkt i := by
  unfold fieldU8
  have : eth.length ≤ 14 + i := by omega
  simp [List.getElem?_append_right this, h]

theorem frame_ihl_append (eth pkt : List U8) (h : eth.length = 14) :
    frame_ihl (eth ++ pkt) = pkt_ihl pkt := by
  unfold frame_ihl pkt_ihl
  rw [show (14 : Nat) = 14 + 0 from rfl, fieldU8_append_right eth pkt h]

theorem frame_dport_append (eth pkt : List U8) (h : eth.length = 14) :
    frame_dport (eth ++ pkt) = pkt_dport pkt := by
  unfold frame_dport pkt_dport
  rw [frame_ihl_append eth pkt h, Nat.add_assoc 14, Nat.add_assoc 14,
    fieldU8_append_right eth pkt h, fieldU8_append_right eth pkt h]

theorem frame_sport_append (eth pkt : List U8) (h : eth.length = 14) :
    frame_sport (eth ++ pkt) = pkt_sport pkt := by
  unfold frame_sport pkt_sport
  rw [frame_ihl_append eth pkt h, Nat.add_assoc 14,
    fieldU8_append_right eth pkt h, fieldU8_append_right eth pkt h]

theorem isTcpFrame_append {eth pkt : List U8} (he : isEthIPv4 eth) (hp : isIPv4Tcp pkt) :
    isTcpFrame (eth ++ pkt) := by
  obtain ⟨hl, h12, h13⟩ := he
  obtain ⟨_, hihl, hproto, hlen⟩ := hp
  unfold isTcpFrame
  rw [frame_ihl_append eth pkt hl, fieldU8_append_left eth pkt (by omega),
    fieldU8_append_left eth pkt (by omega), show (23 : Nat) = 14 + 9 from rfl,
    fieldU8_append_right eth pkt hl, List.length_append, hl]
  unfold pkt_protocol at hproto
  exact ⟨h12, h13, hihl, hproto, by omega⟩

theorem frame_ihl_le (frame : List U8) : frame_ihl frame ≤ 15 := by
  unfold frame_ihl; omega

/-- On a frame that parses through TCP the run reaches the port comparison. -/
theorem drop_tcp_port_of_isTcpFrame {frame : List U8} (h : isTcpFrame frame) (b : U16) :
    drop_tcp_port frame (some b) =
      if frame_dport frame = b.val then
        ⟨[12, 13, 14, 14, 23, 14 + frame_ihl frame * 4 + 2,
            14 + frame_ihl frame * 4 + 3], some ⟨XDP_DROP, 70⟩⟩
      else
        ⟨[12, 13, 14, 14, 23, 14 + frame_ihl frame * 4 + 2,
            14 + frame_ihl frame * 4 + 3], some ⟨XDP_PASS, 73⟩⟩ := by
  obtain ⟨h12, h13, hihl, hproto, hlen⟩ := h
  rw [drop_tcp_port_eq]
  have a1 : ¬ frame.length < 14 := by omega
  have a3 : ¬ frame.length < 34 := by omega
  have a4 : ¬ frame_ihl frame < 5 := by omega
  have a5 : ¬ frame.length < 14 + frame_ihl frame * 4 := by omega
  have a7 : ¬ frame.length < 14 + frame_ihl frame * 4 + 20 := by omega
  simp only [a1, a3, a4, a5, a7, h12, h13, hproto, if_false, and_self, not_true_eq_false,
    ne_eq]

/-- Off a frame that parses through TCP the run returns `XDP_PASS`. -/
theorem drop_tcp_port_of_not_isTcpFrame {frame : List U8} (h : ¬ isTcpFrame frame)
    (m : Option U16) : (drop_tcp_port frame m).action = some XDP_PASS := by
  rw [drop_tcp_port_eq]
  unfold isTcpFrame at h
  split_ifs <;> first | rfl | (exfalso; apply h; refine ⟨?_, ?_, ?_, ?_, ?_⟩ <;> omega)

/-! ## The socket-buffer hooks on a scope and a parsed packet -/

theorem should_filter_unscoped (scope : Option U32) (port : Option U16) (ifindex : U32)
    (h : scope = none ∨ scope = some 0) : should_filter ⟨scope, port⟩ ifindex = 1 := by
  unfold should_filter
  rcases h with h | h <;> subst h <;> simp

theorem should_filter_other (m : Maps) (ifindex s : U32) (hs : m.cfg_ifindex = some s)
    (hnz : s.val ≠ 0) (hne : ifindex ≠ s) : should_filter m ifindex = 0 := by
  unfold should_filter
  rw [hs]
  simp [hnz, hne]

theorem is_blocked_port_disabled (m : Maps) (skb : sk_buff)
    (h : m.cfg_port = none ∨ m.cfg_port = some 0) : is_blocked_port m skb = 0 := by
  rw [is_blocked_port_eq]
  rcases h with h | h <;> simp [h]

theorem is_blocked_port_of_isIPv4Tcp (scope : Option U32) (b : U16) (ifindex : U32)
    {pkt : List U8} (hp : isIPv4Tcp pkt) (hb : b.val ≠ 0) :
    is_blocked_port ⟨scope, some b⟩ ⟨ifindex, pkt⟩ =
      if pkt_sport pkt = b.val ∨ pkt_dport pkt = b.val then 1 else 0 := by
  obtain ⟨hv, hihl, hproto, hlen⟩ := hp
  rw [is_blocked_port_eq]
  have a1 : ¬ pkt.length < 20 := by omega
  have a4 : ¬ pkt.length < pkt_ihl pkt * 4 + 20 := by omega
  simp only [hb, a1, a4, hv, hproto, if_false, ne_eq, not_true_eq_false]

theorem is_blocked_port_no_match (m : Maps) (skb : sk_buff)
    (hn : ∀ b : U16, m.cfg_port = some b →
      pkt_sport skb.data ≠ b.val ∧ pkt_dport skb.data ≠ b.val) :
    is_blocked_port m skb = 0 := by
  rw [is_blocked_port_eq]
  cases hc : m.cfg_port with
  | none => rfl
  | some b =>
    obtain ⟨h1, h2⟩ := hn b hc
    simp only [h1, h2, or_self, if_false, ite_self]

theorem block_egress_of_is_blocked_port_zero (m : Maps) (skb : sk_buff)
    (h : is_blocked_port m skb = 0) : block_egress m skb = 1 := by
  unfold block_egress
  simp [h]

/-! ## Properties of the hooks -/

/-- C1: `drop_tcp_port` never loads a byte at an offset at or beyond the frame
length.  On every frame and every content of `port_to_block` the run produces
a value (no load falls outside the frame), and each offset it loads is below
the frame length and belongs to a header already checked to lie inside the
frame: the ethertype at 12..13 after the 14-byte check, the IPv4 bytes inside
14..33 after the 34-byte check, the TCP destination port at
`14 + ihl*4 + 2 .. 14 + ihl*4 + 3` after the check of `14 + ihl*4 + 20`. -/
theorem C1_drop_tcp_port_loads_in_bounds (frame : List U8) (m : Option U16) :
    (∃ r, (drop_tcp_port frame m).val = some r) ∧
    ∀ off ∈ (drop_tcp_port frame m).reads,
      off < frame.length ∧
      (((off = 12 ∨ off = 13) ∧ 14 ≤ frame.length) ∨
       ((14 ≤ off ∧ off < 34) ∧ 34 ≤ frame.length) ∨
       ((off = 14 + frame_ihl frame * 4 + 2 ∨ off = 14 + frame_ihl frame * 4 + 3) ∧
          14 + frame_ihl frame * 4 + 20 ≤ frame.length)) := by
  have hihl := frame_ihl_le frame
  generalize hr : drop_tcp_port frame m = r
  rw [drop_tcp_port_eq] at hr
  cases m with
  | none =>
    split_ifs at hr <;> subst hr <;> refine ⟨⟨_, rfl⟩, ?_⟩ <;> intro off hoff <;>
      simp only [List.mem_cons, List.mem_singleton, List.not_mem_nil, or_false] at hoff <;>
      omega
  | some b =>
    simp only at hr
    split_ifs at hr <;> subst hr <;> refine ⟨⟨_, rfl⟩, ?_⟩ <;> intro off hoff <;>
      simp only [List.mem_cons, List.mem_singleton, List.not_mem_nil, or_false] at hoff <;>
      omega

/-- C2, as stated, fails on a 20-byte frame: ethertype IPv4, ihl = 5, so that
`14 + ihl*4 = 34 > 20`, yet the run returns at the minimum-size check of the
IPv4 header (line 36), before `ihl` is loaded, and not at the second,
variable-length check (line 47). -/
theorem C2_truncated_frame_stops_at_first_check :
    (fieldU8 truncatedFrame 12 = 8 ∧ fieldU8 truncatedFrame 13 = 0) ∧
    truncatedFrame.length = 20 ∧ frame_ihl truncatedFrame = 5 ∧
    truncatedFrame.length < 14 + frame_ihl truncatedFrame * 4 ∧
    drop_tcp_port truncatedFrame none = ⟨[12, 13], some ⟨XDP_PASS, 36⟩⟩ ∧
    (drop_tcp_port truncatedFrame none).val ≠ some ⟨XDP_PASS, 47⟩ := by
  decide

/-- C2, amended: on every frame with ethertype IPv4 whose IPv4 header declares
an `ihl` with `14 + ihl*4` beyond the frame length, and for every content of
`port_to_block`, `drop_tcp_port` returns `XDP_PASS` having loaded nothing but
the ethertype and the version/ihl byte.  When the frame holds the minimal
20-byte IPv4 header (length at least 34) it stops at the second,
variable-length bounds check (line 47); a shorter frame stops at the
minimum-size check (line 36). -/
theorem C2_ihl_beyond_frame_passes (frame : List U8) (m : Option U16)
    (heth : fieldU8 frame 12 = 8 ∧ fieldU8 frame 13 = 0)
    (hdecl : 14 < frame.length)
    (hihl : frame.length < 14 + frame_ihl frame * 4) :
    drop_tcp_port frame m =
      (if frame.length < 34 then ⟨[12, 13], some ⟨XDP_PASS, 36⟩⟩
       else ⟨[12, 13, 14, 14], some ⟨XDP_PASS, 47⟩⟩) ∧
    (drop_tcp_port frame m).action = some XDP_PASS ∧
    ∀ off ∈ (drop_tcp_port frame m).reads, off = 12 ∨ off = 13 ∨ off = 14 := by
  have hrun : drop_tcp_port frame m =
      (if frame.length < 34 then ⟨[12, 13], some ⟨XDP_PASS, 36⟩⟩
       else ⟨[12, 13, 14, 14], some ⟨XDP_PASS, 47⟩⟩) := by
    rw [drop_tcp_port_eq]
    have a1 : ¬ frame.length < 14 := by omega
    simp only [a1, heth, and_self, not_true_eq_false, if_false]
    by_cases h3 : frame.length < 34
    · simp only [h3, if_true]
    · have a4 : ¬ frame_ihl frame < 5 := by omega
      simp only [h3, a4, hihl, if_false, if_true]
  rw [hrun]
  refine ⟨rfl, ?_, ?_⟩
  · split_ifs <;> rfl
  · intro off hoff
    split_ifs at hoff <;>
      simp only [List.mem_cons, List.mem_singleton, List.not_mem_nil, or_false] at hoff <;>
      omega

/-- Witness of C2: ihl = 15 (a 60-byte header) in a 40-byte frame. -/
theorem C2_ihl_beyond_frame_passes_witness :
    drop_tcp_port ihl15Frame (some 8080) = ⟨[12, 13, 14, 14], some ⟨XDP_PASS, 47⟩⟩ ∧
    (drop_tcp_port ihl15Frame (some 8080)).action = some XDP_PASS ∧
    ∀ off ∈ (drop_tcp_port ihl15Frame (some 8080)).reads, off = 12 ∨ off = 13 ∨ off = 14 :=
  C2_ihl_beyond_frame_passes ihl15Frame (some 8080) (by decide) (by decide) (by decide)

/-- C3: a fully parseable IPv4/TCP packet whose TCP destination port equals the
configured blocked port `b`, with `b` nonzero and the interface scope unset or
0, is dropped by every frame hook: `drop_tcp_port` returns `XDP_DROP` on the
packet behind an Ethernet header of ethertype 0x0800, and `block_egress` and
`block_ingress` return 0 on the packet for every ifindex. -/
theorem C3_destination_port_match_drops (eth pkt : List U8) (b : U16) (scope : Option U32)
    (he : isEthIPv4 eth) (hp : isIPv4Tcp pkt)
    (hd : pkt_dport pkt = b.val) (hb : b.val ≠ 0)
    (hs : scope = none ∨ scope = some 0) :
    (drop_tcp_port (eth ++ pkt) (some b)).action = some XDP_DROP ∧
    ∀ ifindex : U32,
      block_egress ⟨scope, some b⟩ ⟨ifindex, pkt⟩ = 0 ∧
      block_ingress ⟨scope, some b⟩ ⟨ifindex, pkt⟩ = 0 := by
  constructor
  · rw [drop_tcp_port_of_isTcpFrame (isTcpFrame_append he hp), frame_dport_append eth pkt he.1,
      if_pos hd]
    rfl
  · intro ifindex
    have hblk : block_egress ⟨scope, some b⟩ ⟨ifindex, pkt⟩ = 0 := by
      unfold block_egress
      rw [should_filter_unscoped scope (some b) ifindex hs,
        is_blocked_port_of_isIPv4Tcp scope b ifindex hp hb]
      simp [hd]
    exact ⟨hblk, hblk⟩

/-- Witness of C3: blocked port 8080 with destination port 8080, and blocked
port 4041 with destination port 4041. -/
theorem C3_destination_port_match_drops_witness :
    ((drop_tcp_port (ethIPv4 ++ tcpPacket 50000 8080) (some 8080)).action = some XDP_DROP ∧
      ∀ ifindex : U32,
        block_egress ⟨none, some 8080⟩ ⟨ifindex, tcpPacket 50000 8080⟩ = 0 ∧
        block_ingress ⟨none, some 8080⟩ ⟨ifindex, tcpPacket 50000 8080⟩ = 0) ∧
    ((drop_tcp_port (ethIPv4 ++ tcpPacket 50000 4041) (some 4041)).action = some XDP_DROP ∧
      ∀ ifindex : U32,
        block_egress ⟨some 0, some 4041⟩ ⟨ifindex, tcpPacket 50000 4041⟩ = 0 ∧
        block_ingress ⟨some 0, some 4041⟩ ⟨ifindex, tcpPacket 50000 4041⟩ = 0) :=
  ⟨C3_destination_port_match_drops ethIPv4 (tcpPacket 50000 8080) 8080 none
      (by decide) (by decide) (by decide) (by decide) (Or.inl rfl),
   C3_destination_port_match_drops ethIPv4 (tcpPacket 50000 4041) 4041 (some 0)
      (by decide) (by decide) (by decide) (by decide) (Or.inr rfl)⟩

/-- C4: when the `cfg_port` slot is unset or holds 0, `block_egress` and
`block_ingress` return 1 (PASS) on every buffer, for every ifindex and every
content of `cfg_ifindex`. -/
theorem C4_disabled_port_never_drops (m : Maps) (skb : sk_buff)
    (h : m.cfg_port = none ∨ m.cfg_port = some 0) :
    block_egress m skb = 1 ∧ block_ingress m skb = 1 :=
  ⟨block_egress_of_is_blocked_port_zero m skb (is_blocked_port_disabled m skb h),
   block_egress_of_is_blocked_port_zero m skb (is_blocked_port_disabled m skb h)⟩

/-- Witness of C4: blocked port 0, a TCP packet with destination port 8080. -/
theorem C4_disabled_port_never_drops_witness :
    block_egress ⟨none, some 0⟩ ⟨1, tcpPacket 50000 8080⟩ = 1 ∧
    block_ingress ⟨none, some 0⟩ ⟨1, tcpPacket 50000 8080⟩ = 1 :=
  C4_disabled_port_never_drops ⟨none, some 0⟩ ⟨1, tcpPacket 50000 8080⟩ (Or.inr rfl)

/-- C5, as stated, fails: with the `port_to_block` slot holding 0, a fully
parseable IPv4/TCP frame whose TCP destination port is 0 is dropped. -/
theorem C5_zero_slot_drops_port_zero :
    isTcpFrame (tcpFrame 50000 0) ∧ frame_dport (tcpFrame 50000 0) = 0 ∧
    drop_tcp_port (tcpFrame 50000 0) (some 0)
      = ⟨[12, 13, 14, 14, 23, 36, 37], some ⟨XDP_DROP, 70⟩⟩ ∧
    (drop_tcp_port (tcpFrame 50000 0) (some 0)).action ≠ some XDP_PASS := by
  decide

/-- C5, amended: when the `port_to_block` slot is unset, `drop_tcp_port` returns
`XDP_PASS` on every frame; when it holds 0, `drop_tcp_port` returns `XDP_PASS`
on every frame except the fully parseable IPv4/TCP frames whose TCP
destination port is 0, which it drops: the slot value 0 is compared like any
other port. -/
theorem C5_unset_or_zero_slot (frame : List U8) (m : Option U16)
    (h : m = none ∨ m = some 0) :
    (drop_tcp_port frame m).action =
      some (if m = some 0 ∧ isTcpFrame frame ∧ frame_dport frame = 0 then XDP_DROP
            else XDP_PASS) := by
  by_cases ht : isTcpFrame frame
  · rcases h with h | h <;> subst h
    · rw [drop_tcp_port_eq]
      simp only [reduceCtorEq, false_and, if_false]
      split_ifs <;> rfl
    · rw [drop_tcp_port_of_isTcpFrame ht]
      by_cases hd : frame_dport frame = 0
      · have hd' : frame_dport frame = (0 : U16).val := hd
        simp only [hd', ht, hd, and_self, if_true]
        rfl
      · have hd' : ¬ frame_dport frame = (0 : U16).val := hd
        simp only [hd', ht, hd, and_false, if_false]
        rfl
  · rw [drop_tcp_port_of_not_isTcpFrame ht]
    simp [ht]

/-- Witness of C5: slot holding 0, a TCP frame with destination port 8080. -/
theorem C5_unset_or_zero_slot_witness :
    (drop_tcp_port (tcpFrame 50000 8080) (some 0)).action = some XDP_PASS :=
  (C5_unset_or_zero_slot (tcpFrame 50000 8080) (some 0) (Or.inr rfl)).trans (by decide)

/-- C6: a fully parseable IPv4/TCP packet whose TCP source port equals the
configured blocked port `b`, with `b` nonzero and the interface scope unset or
0, makes `block_egress` and `block_ingress` return 0 (DROP) for every ifindex,
whatever its destination port. -/
theorem C6_source_port_match_drops (pkt : List U8) (b : U16) (scope : Option U32)
    (hp : isIPv4Tcp pkt) (hsrc : pkt_sport pkt = b.val) (hb : b.val ≠ 0)
    (hs : scope = none ∨ scope = some 0) (ifindex : U32) :
    block_egress ⟨scope, some b⟩ ⟨ifindex, pkt⟩ = 0 ∧
    block_ingress ⟨scope, some b⟩ ⟨ifindex, pkt⟩ = 0 := by
  have hblk : block_egress ⟨scope, some b⟩ ⟨ifindex, pkt⟩ = 0 := by
    unfold block_egress
    rw [should_filter_unscoped scope (some b) ifindex hs,
      is_blocked_port_of_isIPv4Tcp scope b ifindex hp hb]
    simp [hsrc]
  exact ⟨hblk, hblk⟩

/-- Witness of C6: source port 8080 blocked, destination port 50000. -/
theorem C6_source_port_match_drops_witness :
    block_egress ⟨none, some 8080⟩ ⟨3, tcpPacket 8080 50000⟩ = 0 ∧
    block_ingress ⟨none, some 8080⟩ ⟨3, tcpPacket 8080 50000⟩ = 0 :=
  C6_source_port_match_drops (tcpPacket 8080 50000) 8080 none
    (by decide) (by decide) (by decide) (Or.inl rfl) 3

/-- C7, as stated, fails: a fully parseable Ethernet/IPv4/TCP frame whose TCP
source port is the blocked port 8080 and whose destination port is 50000 is
passed by `drop_tcp_port` (line 73). -/
theorem C7_source_port_match_is_passed :
    isTcpFrame (tcpFrame 8080 50000) ∧ frame_sport (tcpFrame 8080 50000) = 8080 ∧
    drop_tcp_port (tcpFrame 8080 50000) (some 8080)
      = ⟨[12, 13, 14, 14, 23, 36, 37], some ⟨XDP_PASS, 73⟩⟩ ∧
    (drop_tcp_port (tcpFrame 8080 50000) (some 8080)).action ≠ some XDP_DROP := by
  decide

/-- C7, amended: on a fully parseable Ethernet/IPv4/TCP frame whose TCP source
port equals the configured blocked port `b`, `drop_tcp_port` returns
`XDP_DROP` when the TCP destination port equals `b` as well and `XDP_PASS`
otherwise; it never loads the source port.  The frame-reception hook matches on
the destination port only. -/
theorem C7_frame_hook_matches_destination_only (frame : List U8) (b : U16)
    (hf : isTcpFrame frame) (_hsrc : frame_sport frame = b.val) :
    (drop_tcp_port frame (some b)).action =
      some (if frame_dport frame = b.val then XDP_DROP else XDP_PASS) ∧
    (drop_tcp_port frame (some b)).reads =
      [12, 13, 14, 14, 23, 14 + frame_ihl frame * 4 + 2, 14 + frame_ihl frame * 4 + 3] := by
  rw [drop_tcp_port_of_isTcpFrame hf]
  split_ifs <;> exact ⟨rfl, rfl⟩

/-- Witness of C7: source and destination port both 8080, blocked port 8080. -/
theorem C7_frame_hook_matches_destination_only_witness :
    (drop_tcp_port (tcpFrame 8080 8080) (some 8080)).action = some XDP_DROP ∧
    (drop_tcp_port (tcpFrame 8080 8080) (some 8080)).reads = [12, 13, 14, 14, 23, 36, 37] :=
  ⟨(C7_frame_hook_matches_destination_only (tcpFrame 8080 8080) 8080
      (by decide) (by decide)).1.trans (by decide),
   (C7_frame_hook_matches_destination_only (tcpFrame 8080 8080) 8080
      (by decide) (by decide)).2.trans (by decide)⟩

/-- C8: when neither the TCP source port nor the TCP destination port of a
packet (the big-endian 16-bit values at the start of its TCP header) equals the
configured blocked port, every frame hook passes it, for every ifindex and
every interface scope: `drop_tcp_port` returns `XDP_PASS` on the packet behind
any Ethernet header, and `block_egress` and `block_ingress` return 1. -/
theorem C8_no_port_match_passes (eth pkt : List U8) (blocked : Option U16)
    (scope : Option U32) (ifindex : U32)
    (he : eth.length = 14) (_hp : isIPv4Tcp pkt)
    (hn : ∀ b : U16, blocked = some b → pkt_sport pkt ≠ b.val ∧ pkt_dport pkt ≠ b.val) :
    (drop_tcp_port (eth ++ pkt) blocked).action = some XDP_PASS ∧
    block_egress ⟨scope, blocked⟩ ⟨ifindex, pkt⟩ = 1 ∧
    block_ingress ⟨scope, blocked⟩ ⟨ifindex, pkt⟩ = 1 := by
  have hblk : block_egress ⟨scope, blocked⟩ ⟨ifindex, pkt⟩ = 1 :=
    block_egress_of_is_blocked_port_zero _ _ (is_blocked_port_no_match _ _ hn)
  refine ⟨?_, hblk, hblk⟩
  by_cases ht : isTcpFrame (eth ++ pkt)
  · cases blocked with
    | none =>
      rw [drop_tcp_port_eq]
      split_ifs <;> rfl
    | some b =>
      have hd : ¬ frame_dport (eth ++ pkt) = b.val := by
        rw [frame_dport_append eth pkt he]
        exact (hn b rfl).2
      rw [drop_tcp_port_of_isTcpFrame ht, if_neg hd]
      rfl
  · exact drop_tcp_port_of_not_isTcpFrame ht blocked

/-- Witness of C8: blocked port 4041, a connection to port 4040. -/
theorem C8_no_port_match_passes_witness :
    (drop_tcp_port (ethIPv4 ++ tcpPacket 50000 4040) (some 4041)).action = some XDP_PASS ∧
    block_egress ⟨none, some 4041⟩ ⟨1, tcpPacket 50000 4040⟩ = 1 ∧
    block_ingress ⟨none, some 4041⟩ ⟨1, tcpPacket 50000 4040⟩ = 1 :=
  C8_no_port_match_passes ethIPv4 (tcpPacket 50000 4040) (some 4041) none 1
    (by decide) (by decide)
    (by
      intro b hb
      cases hb
      decide)

/-- C9: when the `cfg_ifindex` slot holds a nonzero value `s` and the packet's
ifindex differs from `s`, `block_egress` and `block_ingress` return 1 (PASS) on
every buffer and for every content of `cfg_port`. -/
theorem C9_other_interface_passes (m : Maps) (skb : sk_buff) (s : U32)
    (hs : m.cfg_ifindex = some s) (hnz : s.val ≠ 0) (hne : skb.ifindex ≠ s) :
    block_egress m skb = 1 ∧ block_ingress m skb = 1 := by
  have hblk : block_egress m skb = 1 := by
    unfold block_egress
    rw [should_filter_other m skb.ifindex s hs hnz hne]
    rfl
  exact ⟨hblk, hblk⟩

/-- Witness of C9: scope 2, a packet on interface 1 whose source port is the
blocked port 8080. -/
theorem C9_other_interface_passes_witness :
    block_egress ⟨some 2, some 8080⟩ ⟨1, tcpPacket 8080 50000⟩ = 1 ∧
    block_ingress ⟨some 2, some 8080⟩ ⟨1, tcpPacket 8080 50000⟩ = 1 :=
  C9_other_interface_passes ⟨some 2, some 8080⟩ ⟨1, tcpPacket 8080 50000⟩ 2
    rfl (by decide) (by decide)

/-- C10: on every frame with ethertype IPv4 whose IPv4 header-length field is
less than 5, and for every content of `port_to_block`, `drop_tcp_port` returns
`XDP_PASS` before line 45, where the IP header length that places the TCP
header is computed: at line 41 when the frame holds the minimal IPv4 header,
at line 36 when it does not.  The run loads only the ethertype and the
version/ihl byte, no TCP field. -/
theorem C10_short_ihl_passes (frame : List U8) (m : Option U16)
    (hlen : 14 ≤ frame.length)
    (heth : fieldU8 frame 12 = 8 ∧ fieldU8 frame 13 = 0)
    (hihl : frame_ihl frame < 5) :
    (drop_tcp_port frame m).action = some XDP_PASS ∧
    (∃ r, (drop_tcp_port frame m).val = some r ∧ r.line < 45) ∧
    (∀ off ∈ (drop_tcp_port frame m).reads, off = 12 ∨ off = 13 ∨ off = 14) ∧
    drop_tcp_port frame m =
      (if frame.length < 34 then ⟨[12, 13], some ⟨XDP_PASS, 36⟩⟩
       else ⟨[12, 13, 14], some ⟨XDP_PASS, 41⟩⟩) := by
  have hrun : drop_tcp_port frame m =
      (if frame.length < 34 then ⟨[12, 13], some ⟨XDP_PASS, 36⟩⟩
       else ⟨[12, 13, 14], some ⟨XDP_PASS, 41⟩⟩) := by
    rw [drop_tcp_port_eq]
    have a1 : ¬ frame.length < 14 := by omega
    simp only [a1, heth, and_self, not_true_eq_false, if_false, hihl, if_true]
  refine ⟨?_, ?_, ?_, hrun⟩ <;> rw [hrun]
  · split_ifs <;> rfl
  · split_ifs
    · exact ⟨_, rfl, by decide⟩
    · exact ⟨_, rfl, by decide⟩
  · intro off hoff
    split_ifs at hoff <;>
      simp only [List.mem_cons, List.mem_singleton, List.not_mem_nil, or_false] at hoff <;>
      omega

/-- Witness of C10: a 54-byte frame whose IPv4 header declares ihl = 4. -/
theorem C10_short_ihl_passes_witness :
    (drop_tcp_port ihl4Frame (some 8080)).action = some XDP_PASS ∧
    (∃ r, (drop_tcp_port ihl4Frame (some 8080)).val = some r ∧ r.line < 45) ∧
    (∀ off ∈ (drop_tcp_port ihl4Frame (some 8080)).reads, off = 12 ∨ off = 13 ∨ off = 14) ∧
    drop_tcp_port ihl4Frame (some 8080) = ⟨[12, 13, 14], some ⟨XDP_PASS, 41⟩⟩ :=
  C10_short_ihl_passes ihl4Frame (some 8080) (by decide) (by decide) (by decide)

/-! ## The connect hooks -/

theorem port_conversion_eq (v : Nat) (h : v < 65536) :
    port_conversion v = (v % 256) * 256 + v / 256 := by
  unfold port_conversion
  have e1 : v >>> 8 = v / 256 := by
    rw [Nat.shiftRight_eq_div_pow]
  have e2 : v &&& 0xFF = v % 256 := by
    have := Nat.and_pow_two_sub_one_eq_mod v 8
    simpa using this
  have e3 : (v % 256) <<< 8 = 2 ^ 8 * (v % 256) := by
    rw [Nat.shiftLeft_eq, Nat.mul_comm]
  have hlt : v / 256 < 2 ^ 8 := by
    have : v / 256 < 256 := by omega
    simpa using this
  rw [e1, e2, e3, Nat.or_comm, ← Nat.mul_add_lt_is_or hlt]
  omega

theorem port_conversion_eq_bswap16 (v : Nat) (h : v < 65536) :
    port_conversion v = bswap16 v := by
  rw [port_conversion_eq v h]
  unfold bswap16
  have h1 : v / 256 < 256 := by omega
  have h2 : v / 256 % 256 = v / 256 := Nat.mod_eq_of_lt h1
  have h3 : v % 256 * 256 + v / 256 < 65536 := by omega
  rw [h2, Nat.mod_eq_of_lt h3]

theorem connect4_filter_eq (user_port : U32) :
    connect4_filter user_port =
      if port_conversion (user_port.val % 65536) = BLOCKED_PORT then 0 else 1 := rfl

theorem port_conversion_lt (v : Nat) : port_conversion v < 65536 := by
  unfold port_conversion
  omega

theorem port_conversion_involutive (v : Nat) (h : v < 65536) :
    port_conversion (port_conversion v) = v := by
  have hw : (v % 256) * 256 + v / 256 < 65536 := by omega
  rw [port_conversion_eq v h, port_conversion_eq _ hw]
  have e1 : ((v % 256) * 256 + v / 256) % 256 = v / 256 := by omega
  have e2 : ((v % 256) * 256 + v / 256) / 256 = v % 256 := by omega
  rw [e1, e2]
  omega

/-! ## Early exits -/

theorem is_blocked_port_short (m : Maps) (skb : sk_buff) (h : skb.data.length < 20) :
    is_blocked_port m skb = 0 := by
  rw [is_blocked_port_eq]
  cases m.cfg_port with
  | none => rfl
  | some p => simp only [h, if_true, ite_self]

theorem is_blocked_port_not_ipv4_tcp (m : Maps) (skb : sk_buff)
    (h : pkt_version skb.data ≠ 4 ∨ pkt_protocol skb.data ≠ 6) :
    is_blocked_port m skb = 0 := by
  rw [is_blocked_port_eq]
  cases m.cfg_port with
  | none => rfl
  | some p =>
    simp only
    rcases h with h | h
    · simp only [h, ne_eq, not_false_eq_true, if_true, ite_self]
    · simp only [h, ne_eq, not_false_eq_true, if_true, ite_self]

theorem is_blocked_port_scope_irrelevant (s s' : Option U32) (p : Option U16)
    (skb : sk_buff) : is_blocked_port ⟨s, p⟩ skb = is_blocked_port ⟨s', p⟩ skb := rfl

theorem block_egress_eq_one_iff (m : Maps) (skb : sk_buff) :
    block_egress m skb = 1 ↔ should_filter m skb.ifindex = 0 ∨ is_blocked_port m skb = 0 := by
  unfold block_egress
  by_cases h1 : should_filter m skb.ifindex = 0
  · simp [h1]
  · by_cases h2 : is_blocked_port m skb = 0
    · simp [h1, h2]
    · simp [h1, h2]

theorem should_filter_same_interface (p : Option U16) (ifindex : U32) :
    should_filter ⟨some ifindex, p⟩ ifindex = 1 := by
  unfold should_filter
  simp

theorem drop_tcp_port_unset (frame : List U8) :
    (drop_tcp_port frame none).action = some XDP_PASS := by
  rw [drop_tcp_port_eq]
  split_ifs <;> rfl

/-! ## Properties of the socket-buffer and connect hooks -/

/-- C11: evaluation at the failing input.  The packet has version 4 and
ihl = 4, yet with port 8080 blocked and no interface scope `block_egress` and
`block_ingress` return 0 (DROP): `is_blocked_port` has no `ihl < 5` test and
takes the bytes at offset `ihl*4 + 2 = 18` for the TCP destination port. -/
theorem C11_ihl4_packet_is_dropped :
    pkt_version ihl4Packet = 4 ∧ pkt_ihl ihl4Packet = 4 ∧
    is_blocked_port ⟨none, some 8080⟩ ⟨1, ihl4Packet⟩ = 1 ∧
    block_egress ⟨none, some 8080⟩ ⟨1, ihl4Packet⟩ = 0 ∧
    block_ingress ⟨none, some 8080⟩ ⟨1, ihl4Packet⟩ = 0 := by
  decide

/-- C12: for every `user_port`, `connect4_filter` and `connect6_filter` return 0
(reject) exactly when the destination port converted to host order, the byte
swap of the low 16 bits of `user_port`, equals the compiled-in constant 8080,
and return 1 (permit) otherwise.  Neither program takes a map: the source
looks none up, so the result is the same under every configuration.  Port
8080 (`user_port` 0x901f) is rejected, port 4040 (`user_port` 0xc80f) is
permitted. -/
theorem C12_connect_filters_fixed_port (user_port : U32) :
    (connect4_filter user_port = 0 ↔ bswap16 (user_port.val % 65536) = 8080) ∧
    (connect4_filter user_port = 1 ↔ bswap16 (user_port.val % 65536) ≠ 8080) ∧
    connect6_filter user_port = connect4_filter user_port ∧
    (connect4_filter 0x901f = 0 ∧ connect6_filter 0x901f = 0) ∧
    (connect4_filter 0xc80f = 1 ∧ connect6_filter 0xc80f = 1) := by
  have hlt : user_port.val % 65536 < 65536 := Nat.mod_lt _ (by decide)
  have hconv := port_conversion_eq_bswap16 _ hlt
  refine ⟨?_, ?_, rfl, by decide, by decide⟩
  · rw [connect4_filter_eq, hconv]
    unfold BLOCKED_PORT
    split_ifs with h <;> simp [h]
  · rw [connect4_filter_eq, hconv]
    unfold BLOCKED_PORT
    split_ifs with h <;> simp [h]

/-- C13: the conversion `(port >> 8) | ((port & 0xFF) << 8)` of
`connect4_filter`, truncated to 16 bits, swaps the two bytes of every 16-bit
value `v`; applied twice it gives `v` back; applied to the byte swap of a
host-order port `v` it yields `v`; and `connect4_filter` applies it to the low
16 bits of `user_port`, so that two `user_port` values with the same low 16
bits get the same result. -/
theorem C13_port_conversion_is_byte_swap (v : U16) (u : U32) :
    port_conversion v.val = (v.val % 256) * 256 + v.val / 256 ∧
    port_conversion (port_conversion v.val) = v.val ∧
    port_conversion (bswap16 v.val) = v.val ∧
    (connect4_filter u =
      if port_conversion (u.val % 65536) = BLOCKED_PORT then 0 else 1) ∧
    ∀ u' : U32, u'.val % 65536 = u.val % 65536 →
      connect4_filter u' = connect4_filter u := by
  have hv : v.val < 65536 := v.isLt
  refine ⟨port_conversion_eq _ hv, port_conversion_involutive _ hv, ?_, rfl, ?_⟩
  · rw [← port_conversion_eq_bswap16 _ hv]
    exact port_conversion_involutive _ hv
  · intro u' hu
    rw [connect4_filter_eq, connect4_filter_eq, hu]

/-- C14: on every buffer of fewer than 14 bytes, for every configuration and
ifindex, every frame hook passes: `drop_tcp_port` returns `XDP_PASS` at its
first check, having loaded nothing, and `block_egress` and `block_ingress`
return 1. -/
theorem C14_short_buffer_passes (buf : List U8) (port_to_block : Option U16) (m : Maps)
    (ifindex : U32) (h : buf.length < 14) :
    drop_tcp_port buf port_to_block = ⟨[], some ⟨XDP_PASS, 25⟩⟩ ∧
    (drop_tcp_port buf port_to_block).action = some XDP_PASS ∧
    block_egress m ⟨ifindex, buf⟩ = 1 ∧
    block_ingress m ⟨ifindex, buf⟩ = 1 := by
  have hrun : drop_tcp_port buf port_to_block = ⟨[], some ⟨XDP_PASS, 25⟩⟩ := by
    rw [drop_tcp_port_eq, if_pos h]
  have hblk : block_egress m ⟨ifindex, buf⟩ = 1 :=
    block_egress_of_is_blocked_port_zero _ _
      (is_blocked_port_short m ⟨ifindex, buf⟩ (show buf.length < 20 by omega))
  refine ⟨hrun, ?_, hblk, hblk⟩
  rw [hrun]
  rfl

/-- Witness of C14: the first 13 bytes of an Ethernet header, port 8080
blocked in both configurations. -/
theorem C14_short_buffer_passes_witness :
    drop_tcp_port (ethIPv4.take 13) (some 8080) = ⟨[], some ⟨XDP_PASS, 25⟩⟩ ∧
    (drop_tcp_port (ethIPv4.take 13) (some 8080)).action = some XDP_PASS ∧
    block_egress ⟨none, some 8080⟩ ⟨1, ethIPv4.take 13⟩ = 1 ∧
    block_ingress ⟨none, some 8080⟩ ⟨1, ethIPv4.take 13⟩ = 1 :=
  C14_short_buffer_passes (ethIPv4.take 13) (some 8080) ⟨none, some 8080⟩ 1 (by decide)

/-- C15, as stated, fails: a frame with ethertype 0x0800 whose IP version
nibble is 6, otherwise a complete TCP frame to port 8080, is dropped when port
8080 is stored. -/
theorem C15_version_six_frame_is_dropped :
    fieldU8 version6Frame 14 / 16 = 6 ∧
    drop_tcp_port version6Frame (some 8080)
      = ⟨[12, 13, 14, 14, 23, 36, 37], some ⟨XDP_DROP, 70⟩⟩ ∧
    (drop_tcp_port version6Frame (some 8080)).action ≠ some XDP_PASS := by
  decide

/-- C15, amended: on a frame whose IP version nibble is not 4,
`drop_tcp_port` returns `XDP_PASS` unless the frame passes every test the
program does make (ethertype 0x0800, ihl at least 5, protocol 6, room for the
IP header and a 20-byte TCP header) and its TCP destination port equals the
stored port, in which case it returns `XDP_DROP`.  The program recognises IPv4
by the ethertype and never tests the version nibble. -/
theorem C15_version_nibble_not_tested (frame : List U8) (m : Option U16)
    (_hv : fieldU8 frame 14 / 16 ≠ 4) :
    (drop_tcp_port frame m).action =
      some (match m with
        | none => XDP_PASS
        | some b =>
          if isTcpFrame frame ∧ frame_dport frame = b.val then XDP_DROP else XDP_PASS) := by
  cases m with
  | none => exact drop_tcp_port_unset frame
  | some b =>
    by_cases ht : isTcpFrame frame
    · rw [drop_tcp_port_of_isTcpFrame ht]
      by_cases hd : frame_dport frame = b.val
      · simp only [hd, ht, and_self, if_true]
        rfl
      · simp only [hd, ht, and_false, if_false]
        rfl
    · rw [drop_tcp_port_of_not_isTcpFrame ht]
      simp only [ht, false_and, if_false]

/-- Witness of C15: the version-6 frame to port 8080 with port 4041 stored. -/
theorem C15_version_nibble_not_tested_witness :
    (drop_tcp_port version6Frame (some 4041)).action = some XDP_PASS :=
  (C15_version_nibble_not_tested version6Frame (some 4041) (by decide)).trans (by decide)

/-- C16: non-IPv4 and non-TCP traffic passes.  `drop_tcp_port` returns
`XDP_PASS` on every frame whose bytes 12..13 are not 0x08 0x00 or whose IPv4
protocol byte (offset 23) is not 6; `block_egress` and `block_ingress` return
1 on every buffer whose version nibble is not 4 or whose protocol byte is not
6; all this for every configuration and ifindex. -/
theorem C16_non_ipv4_non_tcp_passes (frame : List U8) (port_to_block : Option U16)
    (m : Maps) (skb : sk_buff) :
    ((¬ (fieldU8 frame 12 = 8 ∧ fieldU8 frame 13 = 0) ∨ fieldU8 frame 23 ≠ 6) →
      (drop_tcp_port frame port_to_block).action = some XDP_PASS) ∧
    ((pkt_version skb.data ≠ 4 ∨ pkt_protocol skb.data ≠ 6) →
      block_egress m skb = 1 ∧ block_ingress m skb = 1) := by
  constructor
  · intro h
    apply drop_tcp_port_of_not_isTcpFrame
    intro ht
    obtain ⟨h12, h13, _, h23, _⟩ := ht
    rcases h with h | h
    · exact h ⟨h12, h13⟩
    · exact h h23
  · intro h
    have hblk : block_egress m skb = 1 :=
      block_egress_of_is_blocked_port_zero _ _ (is_blocked_port_not_ipv4_tcp m skb h)
    exact ⟨hblk, hblk⟩

/-- Witness of C16, with port 8080 blocked: the frame hook passes a TCP packet
to port 8080 handed over without Ethernet header (its bytes 12..13 are 127 0),
and the socket-buffer hooks pass the version-6 frame stripped of its Ethernet
header. -/
theorem C16_non_ipv4_non_tcp_passes_witness :
    (drop_tcp_port (tcpPacket 50000 8080) (some 8080)).action = some XDP_PASS ∧
    block_egress ⟨none, some 8080⟩ ⟨1, version6Frame.drop 14⟩ = 1 ∧
    block_ingress ⟨none, some 8080⟩ ⟨1, version6Frame.drop 14⟩ = 1 :=
  ⟨(C16_non_ipv4_non_tcp_passes (tcpPacket 50000 8080) (some 8080) ⟨none, some 8080⟩
      ⟨1, version6Frame.drop 14⟩).1 (by decide),
   (C16_non_ipv4_non_tcp_passes (tcpPacket 50000 8080) (some 8080) ⟨none, some 8080⟩
      ⟨1, version6Frame.drop 14⟩).2 (by decide)⟩

/-- C17: direction is not a matching criterion.  For every buffer, ifindex and
content of `cfg_ifindex` and `cfg_port`, `block_egress` and `block_ingress`
return the same verdict. -/
theorem C17_egress_ingress_agree (m : Maps) (skb : sk_buff) :
    block_egress m skb = block_ingress m skb := by
  unfold block_egress block_ingress
  rfl

/-- C18: `drop_tcp_port` drops only complete TCP frames.  If the result is
`XDP_DROP` then `5 ≤ ihl ≤ 15`, the frame length is at least
`14 + ihl*4 + 20` and hence at least 54, the ethertype bytes are 0x08 0x00,
the protocol byte is 6, and the slot holds the big-endian 16-bit value found at
offset `14 + ihl*4 + 2`. -/
theorem C18_drop_only_complete_tcp_frames (frame : List U8) (m : Option U16)
    (h : (drop_tcp_port frame m).action = some XDP_DROP) :
    (5 ≤ frame_ihl frame ∧ frame_ihl frame ≤ 15) ∧
    14 + frame_ihl frame * 4 + 20 ≤ frame.length ∧
    54 ≤ frame.length ∧
    (fieldU8 frame 12 = 8 ∧ fieldU8 frame 13 = 0) ∧
    fieldU8 frame 23 = 6 ∧
    ∃ b : U16, m = some b ∧
      fieldU8 frame (14 + frame_ihl frame * 4 + 2) * 256
        + fieldU8 frame (14 + frame_ihl frame * 4 + 3) = b.val := by
  have hne : some XDP_DROP ≠ some XDP_PASS := by decide
  by_cases ht : isTcpFrame frame
  · obtain ⟨h12, h13, hihl, h23, hlen⟩ := ht
    have hle := frame_ihl_le frame
    refine ⟨⟨hihl, hle⟩, hlen, by omega, ⟨h12, h13⟩, h23, ?_⟩
    cases m with
    | none =>
      rw [drop_tcp_port_unset] at h
      exact absurd h.symm hne
    | some b =>
      refine ⟨b, rfl, ?_⟩
      rw [drop_tcp_port_of_isTcpFrame ⟨h12, h13, hihl, h23, hlen⟩] at h
      by_cases hd : frame_dport frame = b.val
      · exact hd
      · rw [if_neg hd] at h
        exact absurd h.symm hne
  · rw [drop_tcp_port_of_not_isTcpFrame ht] at h
    exact absurd h.symm hne

/-- Witness of C18: the dropped 54-byte frame to port 8080. -/
theorem C18_drop_only_complete_tcp_frames_witness :
    (5 ≤ frame_ihl (tcpFrame 50000 8080) ∧ frame_ihl (tcpFrame 50000 8080) ≤ 15) ∧
    14 + frame_ihl (tcpFrame 50000 8080) * 4 + 20 ≤ (tcpFrame 50000 8080).length ∧
    54 ≤ (tcpFrame 50000 8080).length ∧
    (fieldU8 (tcpFrame 50000 8080) 12 = 8 ∧ fieldU8 (tcpFrame 50000 8080) 13 = 0) ∧
    fieldU8 (tcpFrame 50000 8080) 23 = 6 ∧
    ∃ b : U16, some (8080 : U16) = some b ∧
      fieldU8 (tcpFrame 50000 8080) (14 + frame_ihl (tcpFrame 50000 8080) * 4 + 2) * 256
        + fieldU8 (tcpFrame 50000 8080) (14 + frame_ihl (tcpFrame 50000 8080) * 4 + 3)
        = b.val :=
  C18_drop_only_complete_tcp_frames (tcpFrame 50000 8080) (some 8080) (by decide)

/-- C19: configuring an interface scope never causes additional drops.  For
every buffer, ifindex and content of `cfg_port`: if `block_egress` (or
`block_ingress`) returns 1 with `cfg_ifindex` unset or 0 then it returns 1 with
`cfg_ifindex` holding any value; and with `cfg_ifindex` equal to the packet's
ifindex the verdict is the one obtained with `cfg_ifindex` unset or 0. -/
theorem C19_scope_never_adds_drops (port : Option U16) (skb : sk_buff)
    (unscoped scope : Option U32) (h0 : unscoped = none ∨ unscoped = some 0) :
    (block_egress ⟨unscoped, port⟩ skb = 1 → block_egress ⟨scope, port⟩ skb = 1) ∧
    (block_ingress ⟨unscoped, port⟩ skb = 1 → block_ingress ⟨scope, port⟩ skb = 1) ∧
    block_egress ⟨some skb.ifindex, port⟩ skb = block_egress ⟨unscoped, port⟩ skb ∧
    block_ingress ⟨some skb.ifindex, port⟩ skb = block_ingress ⟨unscoped, port⟩ skb := by
  have hmono : block_egress ⟨unscoped, port⟩ skb = 1 → block_egress ⟨scope, port⟩ skb = 1 := by
    intro h
    rw [block_egress_eq_one_iff] at h ⊢
    rw [should_filter_unscoped unscoped port skb.ifindex h0] at h
    rcases h with h | h
    · exact absurd h (by decide)
    · right
      rw [is_blocked_port_scope_irrelevant scope unscoped port skb]
      exact h
  have hsame : block_egress ⟨some skb.ifindex, port⟩ skb = block_egress ⟨unscoped, port⟩ skb := by
    unfold block_egress
    rw [should_filter_unscoped unscoped port skb.ifindex h0,
      should_filter_same_interface port skb.ifindex,
      is_blocked_port_scope_irrelevant (some skb.ifindex) unscoped port skb]
  exact ⟨hmono, hmono, hsame, hsame⟩

/-- Witness of C19: a packet to port 4040 on interface 1 with port 8080 blocked
passes without scope, hence with scope 2; a packet from port 8080 is dropped
with scope 1 as it is without scope. -/
theorem C19_scope_never_adds_drops_witness :
    block_egress ⟨some 2, some 8080⟩ ⟨1, tcpPacket 50000 4040⟩ = 1 ∧
    block_ingress ⟨some 2, some 8080⟩ ⟨1, tcpPacket 50000 4040⟩ = 1 ∧
    block_egress ⟨some 1, some 8080⟩ ⟨1, tcpPacket 8080 50000⟩
      = block_egress ⟨none, some 8080⟩ ⟨1, tcpPacket 8080 50000⟩ ∧
    block_ingress ⟨some 1, some 8080⟩ ⟨1, tcpPacket 8080 50000⟩
      = block_ingress ⟨none, some 8080⟩ ⟨1, tcpPacket 8080 50000⟩ :=
  ⟨(C19_scope_never_adds_drops (some 8080) ⟨1, tcpPacket 50000 4040⟩ none (some 2)
      (Or.inl rfl)).1 (by decide),
   (C19_scope_never_adds_drops (some 8080) ⟨1, tcpPacket 50000 4040⟩ none (some 2)
      (Or.inl rfl)).2.1 (by decide),
   (C19_scope_never_adds_drops (some 8080) ⟨1, tcpPacket 8080 50000⟩ none none
      (Or.inl rfl)).2.2.1,
   (C19_scope_never_adds_drops (some 8080) ⟨1, tcpPacket 8080 50000⟩ none none
      (Or.inl rfl)).2.2.2⟩

/-- C20: the run of `drop_tcp_port`, and with it the verdict, depends only on
the frame length, the ethertype bytes (offsets 12..13), the ihl nibble (offset
14), the protocol byte (offset 23), the two TCP destination-port bytes
(offsets `14 + ihl*4 + 2` and `14 + ihl*4 + 3`) and the `port_to_block` slot:
two frames of equal length that agree on those bytes get the same run under
the same slot content. -/
theorem C20_verdict_depends_on_parsed_bytes (f g : List U8) (m : Option U16)
    (hlen : f.length = g.length)
    (h12 : fieldU8 f 12 = fieldU8 g 12) (h13 : fieldU8 f 13 = fieldU8 g 13)
    (hihl : fieldU8 f 14 % 16 = fieldU8 g 14 % 16)
    (h23 : fieldU8 f 23 = fieldU8 g 23)
    (hd2 : fieldU8 f (14 + fieldU8 f 14 % 16 * 4 + 2)
      = fieldU8 g (14 + fieldU8 g 14 % 16 * 4 + 2))
    (hd3 : fieldU8 f (14 + fieldU8 f 14 % 16 * 4 + 3)
      = fieldU8 g (14 + fieldU8 g 14 % 16 * 4 + 3)) :
    drop_tcp_port f m = drop_tcp_port g m ∧
    (drop_tcp_port f m).action = (drop_tcp_port g m).action := by
  have hi : frame_ihl f = frame_ihl g := hihl
  have hd : frame_dport f = frame_dport g := by
    unfold frame_dport frame_ihl
    rw [hd2, hd3]
  have hrun : drop_tcp_port f m = drop_tcp_port g m := by
    rw [drop_tcp_port_eq f, drop_tcp_port_eq g, hd, hi, hlen, h12, h13, h23]
  exact ⟨hrun, by rw [hrun]⟩

/-- Witness of C20: two frames to port 8080 that differ in MAC addresses, IP
addresses, source port, TCP flags and other unparsed bytes. -/
theorem C20_verdict_depends_on_parsed_bytes_witness :
    drop_tcp_port (tcpFrame 50000 8080) (some 8080)
      = drop_tcp_port otherTcpFrame (some 8080) ∧
    (drop_tcp_port (tcpFrame 50000 8080) (some 8080)).action
      = (drop_tcp_port otherTcpFrame (some 8080)).action :=
  C20_verdict_depends_on_parsed_bytes (tcpFrame 50000 8080) otherTcpFrame (some 8080)
    (by decide) (by decide) (by decide) (by decide) (by decide) (by decide) (by decide)

end PacketBlocker
